import Mathlib

/-!
# The zh landing page of the GooseLang documentation site

A shallow embedding of `src/i18n/zh/docusaurus-plugin-content-pages/index.js`:
the two function components `HomepageHeader` and `Home`, the React element
trees they return, and the site configuration they read through
`useDocusaurusContext`.
-/

namespace GooseLangHome

/-! ## JavaScript values and the site configuration -/

/-- An error thrown by JavaScript evaluation (an abrupt completion). -/
structure JSError where
  message : String
  deriving DecidableEq

/-- A JavaScript value stored in a field of the site configuration.
`undefined` is also what reading an absent field gives; `str` is a string
primitive; `other` is any remaining value (number, boolean, null, symbol,
object), abstracted by the outcome of the `ToString` conversion on it, which
is a string or a thrown error (a symbol, an object with a throwing
`toString`). -/
inductive JSValue where
  | undefined
  | str (s : String)
  | other (toStr : Except JSError String)

/-- The `ToString` conversion a template literal applies to a substitution. -/
def JSValue.toStr : JSValue → Except JSError String
  | .undefined => .ok "undefined"
  | .str s => .ok s
  | .other r => r

/-- The site configuration object: its fields, by name. -/
abbrev SiteConfig := List (String × JSValue)

/-- Property read `siteConfig.key`: the value of the field, `undefined` when the
field is absent. -/
def SiteConfig.getField (siteConfig : SiteConfig) (key : String) : JSValue :=
  (siteConfig.lookup key).getD .undefined

/-- The object returned by `useDocusaurusContext()`. -/
structure DocusaurusContext where
  siteConfig : SiteConfig

/-- The class-name mapping imported from `index.module.css`. -/
structure Styles where
  heroBanner : String
  buttons : String

/-! ## Rendering as explicit state passing

A render reads the site configuration held by the framework and gives back
its outcome together with the configuration as it is after the call. -/

/-- A render computation over the site configuration. -/
def Render (α : Type) : Type := SiteConfig → Except JSError α × SiteConfig

/-- Return a value, leaving the configuration alone. -/
def Render.pure {α : Type} (a : α) : Render α := fun cfg => (.ok a, cfg)

/-- Sequence two computations; a thrown error skips the rest. -/
def Render.bind {α β : Type} (x : Render α) (f : α → Render β) : Render β :=
  fun cfg =>
    match x cfg with
    | (.ok a, cfg1) => f a cfg1
    | (.error e, cfg1) => (.error e, cfg1)

instance : Monad Render where
  pure := Render.pure
  bind := Render.bind

/-- Lift the outcome of a pure JavaScript evaluation step. -/
def Render.ofExcept {α : Type} (r : Except JSError α) : Render α := fun cfg => (r, cfg)

/-- The hook `useDocusaurusContext()`: reads the context, writes nothing. -/
def useDocusaurusContext : Render DocusaurusContext :=
  fun cfg => (.ok { siteConfig := cfg }, cfg)

/-! ## React elements -/

/-- The components the page refers to. -/
inductive Component where
  | Layout | Link | Heading | HomepageFeatures | HomepageHeader
  deriving DecidableEq

/-- The type of a React element: a host tag or a component. -/
inductive ElementType where
  | tag (name : String)
  | component (c : Component)
  deriving DecidableEq

/-- The value of a prop: a string, or an object literal of string fields. -/
inductive PropValue where
  | str (s : String)
  | obj (fields : List (String × String))
  deriving DecidableEq

/-- A markup tree: a text child or an element with props and children. -/
inductive Node where
  | text (s : String)
  | element (type : ElementType) (props : List (String × PropValue)) (children : List Node)

/-- The `clsx` utility on string arguments: the non-empty ones, joined by a space. -/
def clsx (args : List String) : String :=
  " ".intercalate (args.filter (fun a => a ≠ ""))

/-- The function component `HomepageHeader`. -/
def HomepageHeader (styles : Styles) : Render Node := do
  let ctx ← useDocusaurusContext
  let _siteConfig := ctx.siteConfig
  return .element (.tag "header") [("className", .str (clsx ["hero hero--primary", styles.heroBanner]))] [
    .element (.tag "div") [("className", .str "container")] [
      .element (.component .Heading) [("as", .str "h1"), ("className", .str "hero__title")] [
        .text "GooseLang 文档中心"],
      .element (.tag "p") [("className", .str "hero__subtitle")] [
        .text "GooseLang 开发 & 使用的最终指南"],
      .element (.tag "div") [("className", .str styles.buttons)] [
        .element (.component .Link)
          [("className", .str "button button--secondary button--lg"), ("to", .str "/dev/intro")] [
          .text "开发文档⚙️"],
        .element (.tag "span") [("style", .obj [("width", "5vw")])] [],
        .element (.component .Link)
          [("className", .str "button button--secondary button--lg"), ("to", .str "/guide/intro")] [
          .text "用户手册🧭"]]]]

/-- The function component `Home`, the default export. -/
def Home : Render Node := do
  let ctx ← useDocusaurusContext
  let siteConfig := ctx.siteConfig
  let title ← Render.ofExcept ((siteConfig.getField "title").toStr.map (fun t => "欢迎来到 " ++ t))
  return .element (.component .Layout)
    [("title", .str title), ("description", .str "GooseLang 开发 & 使用的终极指南")] [
    .element (.component .HomepageHeader) [] [],
    .element (.tag "main") [] [
      .element (.component .HomepageFeatures) [] []]]

/-! ## Observations on markup trees -/

mutual
/-- The rendered text of a tree: its text children, in document order. -/
def Node.textContent : Node → String
  | .text s => s
  | .element _ _ children => Node.textContentList children
/-- The rendered text of a list of sibling trees. -/
def Node.textContentList : List Node → String
  | [] => ""
  | n :: ns => Node.textContent n ++ Node.textContentList ns
end

mutual
/-- The `Link` elements of a tree, in document order. -/
def Node.linkElements : Node → List Node
  | .text _ => []
  | .element type props children =>
    if type = .component .Link then
      .element type props children :: Node.linkElementsList children
    else
      Node.linkElementsList children
/-- The `Link` elements of a list of sibling trees, in document order. -/
def Node.linkElementsList : List Node → List Node
  | [] => []
  | n :: ns => Node.linkElements n ++ Node.linkElementsList ns
end

/-- The element type at the root of a tree, if the root is an element. -/
def Node.type? : Node → Option ElementType
  | .text _ => none
  | .element type _ _ => some type

/-- The props at the root of a tree. -/
def Node.props : Node → List (String × PropValue)
  | .text _ => []
  | .element _ props _ => props

/-- The value of one prop at the root of a tree. -/
def Node.prop (n : Node) (name : String) : Option PropValue :=
  n.props.lookup name

/-- The children of the root of a tree. -/
def Node.children : Node → List Node
  | .text _ => []
  | .element _ _ children => children

/-- The tree with one prop removed at its root. -/
def Node.withoutProp (name : String) : Node → Node
  | .text s => .text s
  | .element type props children =>
    .element type (props.filter (fun p => p.1 ≠ name)) children

/-- Substring test on text: `sub` occurs contiguously in `text`. -/
def containsText (text sub : String) : Prop :=
  sub.data <:+: text.data

instance (text sub : String) : Decidable (containsText text sub) :=
  inferInstanceAs (Decidable (sub.data <:+: text.data))

/-- The greeting that `Home` passes to the layout for a title already in string form. -/
def greeting (title : String) : String := "欢迎来到 " ++ title

/-- The fixed description literal in `Home`. -/
def homeDescription : String := "GooseLang 开发 & 使用的终极指南"

/-- The children `Home` gives the layout. -/
def homeChildren : List Node :=
  [.element (.component .HomepageHeader) [] [],
   .element (.tag "main") [] [.element (.component .HomepageFeatures) [] []]]

/-! ## Sample inputs -/

/-- A class-name mapping as CSS modules generate it. -/
def sampleStyles : Styles := ⟨"heroBanner_qdFl", "buttons_AeoN"⟩

/-- A configuration with a title and a tagline. -/
def sampleConfig : SiteConfig :=
  [("title", .str "My Site"), ("tagline", .str "Dinosaurs are cool")]

/-- A configuration that differs from `sampleConfig` in every field. -/
def otherConfig : SiteConfig :=
  [("title", .str "GooseLang Docs"), ("tagline", .str "Contest platform"), ("url", .str "https://example.org")]

/-! ## Unfolding lemmas -/

theorem Home_run (siteConfig : SiteConfig) :
    Home siteConfig =
      (match (siteConfig.getField "title").toStr with
        | .ok t => .ok (.element (.component .Layout)
            [("title", .str (greeting t)), ("description", .str homeDescription)] homeChildren)
        | .error e => .error e,
       siteConfig) := by
  show Render.bind _ _ siteConfig = _
  simp only [Render.bind, useDocusaurusContext, Render.ofExcept]
  cases h : (siteConfig.getField "title").toStr <;> rfl

theorem Home_config (siteConfig : SiteConfig) : (Home siteConfig).2 = siteConfig := by
  rw [Home_run]

theorem HomepageHeader_config (styles : Styles) (siteConfig : SiteConfig) :
    (HomepageHeader styles siteConfig).2 = siteConfig := rfl

theorem HomepageHeader_result (styles : Styles) (c1 c2 : SiteConfig) :
    (HomepageHeader styles c1).1 = (HomepageHeader styles c2).1 := rfl

theorem containsText_append_right (a b : String) : containsText (a ++ b) b :=
  ⟨a.data, [], by simp [String.data_append]⟩

/-- A title whose `ToString` conversion throws (a symbol, say) makes `Home`
throw, while `HomepageHeader`, which never reads the title, still returns. -/
theorem Home_throws_on_unconvertible_title (styles : Styles) (e : JSError) :
    (Home [("title", .other (.error e))]).1 = .error e ∧
    ∃ tree, (HomepageHeader styles [("title", .other (.error e))]).1 = .ok tree :=
  ⟨rfl, _, rfl⟩

/-! ## Properties of the page -/

/-- C1: whenever the title of the site configuration has the string form `t`
(for a string title, the title itself), `Home` returns a `Layout` element
whose `title` prop is exactly the greeting followed by `t`; so a non-empty
title occurs in the greeting as a substring. -/
theorem Home_layout_title (siteConfig : SiteConfig) (t : String)
    (h : (siteConfig.getField "title").toStr = .ok t) :
    ∃ tree, (Home siteConfig).1 = .ok tree ∧
      tree.type? = some (.component .Layout) ∧
      tree.prop "title" = some (.str ("欢迎来到 " ++ t)) ∧
      (t ≠ "" → ∀ g, tree.prop "title" = some (.str g) → containsText g t) := by
  rw [Home_run, h]
  refine ⟨_, rfl, rfl, rfl, ?_⟩
  intro _ g hg
  have hg2 : g = "欢迎来到 " ++ t := by
    have h3 : some (PropValue.str (greeting t)) = some (PropValue.str g) := hg
    simp only [Option.some.injEq, PropValue.str.injEq] at h3
    exact h3.symm
  rw [hg2]
  exact containsText_append_right _ _

/-- Witness for C1: a configuration whose title is the string "My Site". -/
theorem Home_layout_title_witness :
    ∃ tree, (Home sampleConfig).1 = .ok tree ∧
      tree.type? = some (.component .Layout) ∧
      tree.prop "title" = some (.str ("欢迎来到 " ++ "My Site")) ∧
      ("My Site" ≠ "" → ∀ g, tree.prop "title" = some (.str g) → containsText g "My Site") :=
  Home_layout_title sampleConfig "My Site" rfl

/-- C2: for every site configuration, the tree returned by `HomepageHeader`
holds exactly two `Link` elements, in document order the one to "/dev/intro"
and then the one to "/guide/intro". -/
theorem HomepageHeader_links (styles : Styles) (siteConfig : SiteConfig) :
    ∃ tree, (HomepageHeader styles siteConfig).1 = .ok tree ∧
      tree.linkElements.length = 2 ∧
      tree.linkElements.map (fun l => l.prop "to") =
        [some (.str "/dev/intro"), some (.str "/guide/intro")] :=
  ⟨_, rfl, rfl, rfl⟩

/-- C3, as stated, fails: for the configuration whose title is the non-empty
string "My Site", `HomepageHeader` returns a tree whose rendered text does
not contain "My Site". -/
theorem HomepageHeader_title_not_in_text :
    sampleConfig.getField "title" = .str "My Site" ∧ "My Site" ≠ "" ∧
    ∃ tree, (HomepageHeader sampleStyles sampleConfig).1 = .ok tree ∧
      ¬ containsText tree.textContent "My Site" :=
  ⟨rfl, by decide, _, rfl, by decide⟩

/-- C3, amended: `HomepageHeader` reads the site configuration but
interpolates none of its fields. Its result is the same for every two
configurations, it is a tree, and the rendered text of that tree is the
fixed text of the four literals in the source. -/
theorem HomepageHeader_text_fixed (styles : Styles) (c1 c2 : SiteConfig) :
    (HomepageHeader styles c1).1 = (HomepageHeader styles c2).1 ∧
    ∃ tree, (HomepageHeader styles c1).1 = .ok tree ∧
      tree.textContent =
        "GooseLang 文档中心GooseLang 开发 & 使用的最终指南开发文档⚙️用户手册🧭" := by
  refine ⟨rfl, _, rfl, ?_⟩
  simp only [Node.textContent, Node.textContentList]
  decide

/-- C4, as stated, fails: two configurations that differ in every field,
with different `title` props as a result, get the same `description` prop. -/
theorem Home_description_same_for_different_configs :
    sampleConfig.getField "title" = .str "My Site" ∧
    otherConfig.getField "title" = .str "GooseLang Docs" ∧
    sampleConfig.getField "tagline" = .str "Dinosaurs are cool" ∧
    otherConfig.getField "tagline" = .str "Contest platform" ∧
    sampleConfig.getField "url" = .undefined ∧
    otherConfig.getField "url" = .str "https://example.org" ∧
    ∃ t1 t2, (Home sampleConfig).1 = .ok t1 ∧ (Home otherConfig).1 = .ok t2 ∧
      t1.prop "title" ≠ t2.prop "title" ∧
      t1.prop "description" = t2.prop "description" :=
  ⟨rfl, rfl, rfl, rfl, rfl, rfl, _, _, rfl, rfl, by decide, rfl⟩

/-- C4, amended: `Home` supplies the layout with a page title derived from
the site configuration (the greeting followed by the string form of
`siteConfig.title`) and with a description that is a fixed string, the same
for every configuration. -/
theorem Home_description_fixed (siteConfig : SiteConfig) (t : String)
    (h : (siteConfig.getField "title").toStr = .ok t) :
    ∃ tree, (Home siteConfig).1 = .ok tree ∧
      tree.prop "title" = some (.str ("欢迎来到 " ++ t)) ∧
      tree.prop "description" = some (.str "GooseLang 开发 & 使用的终极指南") := by
  rw [Home_run, h]
  exact ⟨_, rfl, rfl, rfl⟩

/-- Witness for the amended C4, at a configuration with a string title. -/
theorem Home_description_fixed_witness :
    ∃ tree, (Home otherConfig).1 = .ok tree ∧
      tree.prop "title" = some (.str ("欢迎来到 " ++ "GooseLang Docs")) ∧
      tree.prop "description" = some (.str "GooseLang 开发 & 使用的终极指南") :=
  Home_description_fixed otherConfig "GooseLang Docs" rfl

/-- C5: rendering is idempotent. A second invocation of `Home`, run on the
configuration the first one leaves behind, gives the same result as the
first, and so does a second invocation of `HomepageHeader`. -/
theorem render_idempotent (styles : Styles) (siteConfig : SiteConfig) :
    (Home (Home siteConfig).2).1 = (Home siteConfig).1 ∧
    (HomepageHeader styles (HomepageHeader styles siteConfig).2).1 =
      (HomepageHeader styles siteConfig).1 := by
  constructor
  · rw [Home_config]
  · rfl

/-- C6: for every site configuration whose `title` field is present and is
a string, `Home` and `HomepageHeader` both return a markup tree, not an
error. -/
theorem render_total (styles : Styles) (siteConfig : SiteConfig) (s : String)
    (h : siteConfig.getField "title" = .str s) :
    (∃ tree, (Home siteConfig).1 = .ok tree) ∧
    (∃ tree, (HomepageHeader styles siteConfig).1 = .ok tree) := by
  refine ⟨?_, _, rfl⟩
  rw [Home_run, h]
  exact ⟨_, rfl⟩

/-- Witness for C6, at a configuration with the string title "My Site". -/
theorem render_total_witness :
    (∃ tree, (Home sampleConfig).1 = .ok tree) ∧
    (∃ tree, (HomepageHeader sampleStyles sampleConfig).1 = .ok tree) :=
  render_total sampleStyles sampleConfig "My Site" rfl

/-- C7: whenever `Home` returns (the title has a string form), the tree is
one `Layout` element whose children are, in order, the `HomepageHeader`
element and one `main` element; the only child of `main` is the
`HomepageFeatures` element, which has no props. -/
theorem Home_tree_shape (siteConfig : SiteConfig) (t : String)
    (h : (siteConfig.getField "title").toStr = .ok t) :
    ∃ layoutProps headerProps mainProps,
      (Home siteConfig).1 = .ok
        (.element (.component .Layout) layoutProps
          [.element (.component .HomepageHeader) headerProps [],
           .element (.tag "main") mainProps
             [.element (.component .HomepageFeatures) [] []]]) := by
  rw [Home_run, h]
  exact ⟨_, _, _, rfl⟩

/-- Witness for C7, at a configuration with the string title "My Site". -/
theorem Home_tree_shape_witness :
    ∃ layoutProps headerProps mainProps,
      (Home sampleConfig).1 = .ok
        (.element (.component .Layout) layoutProps
          [.element (.component .HomepageHeader) headerProps [],
           .element (.tag "main") mainProps
             [.element (.component .HomepageFeatures) [] []]]) :=
  Home_tree_shape sampleConfig "My Site" rfl

/-- C8: the site configuration is consumed read-only. The configuration
after `Home`, and after `HomepageHeader`, is the configuration before it,
so every field, `title` included, reads the same afterwards. -/
theorem render_preserves_config (styles : Styles) (siteConfig : SiteConfig) :
    (Home siteConfig).2 = siteConfig ∧
    (HomepageHeader styles siteConfig).2 = siteConfig ∧
    (∀ key, (Home siteConfig).2.getField key = siteConfig.getField key) ∧
    (∀ key, (HomepageHeader styles siteConfig).2.getField key = siteConfig.getField key) := by
  refine ⟨Home_config siteConfig, rfl, ?_, fun _ => rfl⟩
  intro key
  rw [Home_config]

/-- C9: for every site configuration, `HomepageHeader` returns a `header`
element with one child, the container `div`, whose children are in order
the `h1` `Heading`, the paragraph of class `hero__subtitle` and the buttons
`div`; the buttons `div` holds the `Link` to "/dev/intro", a `span`, and the
`Link` to "/guide/intro". -/
theorem HomepageHeader_tree_shape (styles : Styles) (siteConfig : SiteConfig) :
    ∃ headerProps headingProps headingChildren subtitleChildren link1Props link1Children
        spacerProps link2Props link2Children,
      (HomepageHeader styles siteConfig).1 = .ok
        (.element (.tag "header") headerProps
          [.element (.tag "div") [("className", .str "container")]
            [.element (.component .Heading) headingProps headingChildren,
             .element (.tag "p") [("className", .str "hero__subtitle")] subtitleChildren,
             .element (.tag "div") [("className", .str styles.buttons)]
               [.element (.component .Link) link1Props link1Children,
                .element (.tag "span") spacerProps [],
                .element (.component .Link) link2Props link2Children]]]) ∧
      headingProps.lookup "as" = some (.str "h1") ∧
      link1Props.lookup "to" = some (.str "/dev/intro") ∧
      link2Props.lookup "to" = some (.str "/guide/intro") :=
  ⟨_, _, _, _, _, _, _, _, _, rfl, rfl, rfl, rfl⟩

/-- C10: `Home` depends on the site configuration only through `title`.
Two configurations with the same `title` field, whatever their other
fields, give the same result; and two trees returned for any two
configurations agree in everything but the `title` prop of the `Layout`. -/
theorem Home_depends_on_title_only (c1 c2 c3 c4 : SiteConfig) (t3 t4 : Node)
    (h : c1.getField "title" = c2.getField "title")
    (h3 : (Home c3).1 = .ok t3) (h4 : (Home c4).1 = .ok t4) :
    (Home c1).1 = (Home c2).1 ∧
    t3.withoutProp "title" = t4.withoutProp "title" := by
  constructor
  · rw [Home_run, Home_run, h]
  · rw [Home_run] at h3 h4
    cases h3s : (c3.getField "title").toStr with
    | error e => rw [h3s] at h3; cases h3
    | ok s3 =>
      cases h4s : (c4.getField "title").toStr with
      | error e => rw [h4s] at h4; cases h4
      | ok s4 =>
        rw [h3s] at h3
        rw [h4s] at h4
        injection h3 with h3
        injection h4 with h4
        subst h3 h4
        rfl

/-- Witness for C10: two configurations with the title "My Site" and
different other fields, and two configurations with different titles. -/
theorem Home_depends_on_title_only_witness :
    (Home sampleConfig).1 = (Home [("url", .str "https://example.org"), ("title", .str "My Site")]).1 ∧
    (.element (.component .Layout)
        [("title", .str "欢迎来到 My Site"), ("description", .str "GooseLang 开发 & 使用的终极指南")]
        homeChildren : Node).withoutProp "title" =
      (.element (.component .Layout)
        [("title", .str "欢迎来到 GooseLang Docs"), ("description", .str "GooseLang 开发 & 使用的终极指南")]
        homeChildren : Node).withoutProp "title" :=
  Home_depends_on_title_only sampleConfig [("url", .str "https://example.org"), ("title", .str "My Site")]
    sampleConfig otherConfig _ _ rfl rfl rfl

end GooseLangHome
